import Mathlib

/-!
Shallow embedding of the LedgerFlow AI service core, `src/app/analysis_logic.py`,
function `run_analysis` and its input/output schemas.

Modelling conventions:
* Python floats are modelled as rationals (ℚ); all the arithmetic in the source
  (sums, division, abs, comparisons) is exact on the inputs considered.
* A raw `date` string is modelled by whether `pd.to_datetime` parses it, and if so
  by its calendar-day index (an integer number of days); `datetime.now()` is the
  explicit parameter `now` at the same granularity, so
  `(datetime.now() - df.date.min).days` becomes `now - minDate`.
* A raw numeric field (`amount`, `current_balance`, typed `Union[float, str]` in
  the source) is a float, a string that parses to a number, or a string that
  does not parse.
* Python `int(x)` truncates toward zero; this is `truncQ` below.
* The external Gemini call is an explicit parameter: `none` models `client is None`
  (construction failed at process start); `some outcome` models the call with its
  observable outcome (raised, returned non-JSON text, or returned a JSON value).
* `pd.DataFrame([])` built from an empty record list has no columns, so the column
  access `df[amount]` on line 53 of the source raises `KeyError`; `run_analysis`
  is therefore `Except NormError _`, with the empty input list mapped to that error.
-/

namespace LedgerFlow

/-- A raw transaction `date` string: either `pd.to_datetime` parses it to a
calendar day (day index as an integer), or coercion fails (`NaT`). -/
inductive RawDate where
  | valid (day : ℤ)
  | invalid
deriving DecidableEq

/-- A raw numeric value of Python static shape `Union[float, str]`: a float,
a string that numeric coercion parses to `q`, or a string it rejects. -/
inductive RawNum where
  | num (q : ℚ)
  | strOk (q : ℚ)
  | strBad
deriving DecidableEq

/-- Input schema `Transaction` (analysis_logic.py lines 12-16). -/
structure RawTx where
  date : RawDate
  category : String
  amount : RawNum
  type : String
deriving DecidableEq

/-- `pd.to_datetime(df.date, errors="coerce")`: failed parses become missing. -/
def parseDate : RawDate → Option ℤ
  | .valid d => some d
  | .invalid => none

/-- `pd.to_numeric(df.amount, errors="coerce")`: failed parses become missing. -/
def parseAmount : RawNum → Option ℚ
  | .num q => some q
  | .strOk q => some q
  | .strBad => none

/-- `float(current_balance)` with `except ValueError: 0.0`
(analysis_logic.py lines 43-46). -/
def parseBalance : RawNum → ℚ
  | .num q => q
  | .strOk q => q
  | .strBad => 0

/-- A row of the cleaned table: both coercions succeeded. -/
structure CleanTx where
  day : ℤ
  category : String
  amount : ℚ
  type : String
deriving DecidableEq

/-- One row after the two coercions; `none` when the row is dropped by
`df.dropna(subset=[date, amount])` (line 57). -/
def parseRow (t : RawTx) : Option CleanTx :=
  match parseDate t.date, parseAmount t.amount with
  | some d, some a => some ⟨d, t.category, a, t.type⟩
  | _, _ => none

/-- The cleaned table (lines 50-57): coerce `amount` and `date`, drop rows where
either is missing. Row order is preserved, as in pandas. -/
def cleanRows (txs : List RawTx) : List CleanTx :=
  txs.filterMap parseRow

/-- `df.date.min()` over the cleaned table; only used when the table is nonempty. -/
def minDate : List CleanTx → ℤ
  | [] => 0
  | t :: ts => ts.foldl (fun m u => min m u.day) t.day

/-- `debits = df[df.type == "debit"].amount.abs().sum()` (line 60). -/
def totalDebits (cl : List CleanTx) : ℚ :=
  ((cl.filter fun t => t.type = "debit").map fun t => |t.amount|).sum

/-- `days_elapsed` (lines 63-67): 1 for an empty cleaned table, else
`(datetime.now() - df.date.min()).days + 1` at whole-day granularity. -/
def daysElapsedOf (cl : List CleanTx) (now : ℤ) : ℤ :=
  if cl = [] then 1 else now - minDate cl + 1

/-- `avg_daily_debit` (lines 63-68): 0 for an empty cleaned table, else
`debits / days_elapsed if days_elapsed > 0 else 0`. -/
def avgOf (cl : List CleanTx) (now : ℤ) : ℚ :=
  if cl = [] then 0
  else if 0 < daysElapsedOf cl now then totalDebits cl / (daysElapsedOf cl now : ℚ) else 0

/-- `days_elapsed` as a function of the raw input. -/
def daysElapsed (txs : List RawTx) (now : ℤ) : ℤ :=
  daysElapsedOf (cleanRows txs) now

/-- `avg_daily_debit` as a function of the raw input. -/
def avgDailyDebit (txs : List RawTx) (now : ℤ) : ℚ :=
  avgOf (cleanRows txs) now

/-- Python `int()` applied to a rational value: truncation toward zero. -/
def truncQ (q : ℚ) : ℤ :=
  if 0 ≤ q then ⌊q⌋ else ⌈q⌉

/-- `days_to_zero_local = int(current_balance / avg_daily_debit) if avg_daily_debit > 0
else 999` (line 71). -/
def daysToZeroLocal (bal avg : ℚ) : ℤ :=
  if 0 < avg then truncQ (bal / avg) else 999

/-- `score_fallback = min(max(50 + int(avg_daily_debit / 100000 * 5), 10), 100)`
(line 118). -/
def scoreFallback (avg : ℚ) : ℤ :=
  min (max (50 + truncQ (avg / 100000 * 5)) 10) 100

/-- A JSON value, as produced by `json.loads` on the model response text. -/
inductive Json where
  | null
  | jbool (b : Bool)
  | jnum (q : ℚ)
  | jstr (s : String)
  | jarr (l : List Json)
  | jobj (fields : List (String × Json))

/-- Output schema `FinancialAnalysisResult` (lines 24-28). The
`monthly_spending_shifts` field is annotated as a bare `list` in the source, so
its elements are arbitrary JSON values. -/
structure AnalysisResult where
  financial_score : ℤ
  days_to_zero : ℤ
  monthly_spending_shifts : List Json
  advice : String

/-- Dictionary lookup on a parsed JSON object (objects from `json.loads` have
unique keys). -/
def lookupField : List (String × Json) → String → Option Json
  | [], _ => none
  | (k, v) :: rest, key => if k = key then some v else lookupField rest key

/-- Integer parse of a decimal digit. -/
def digitVal (c : Char) : Option ℕ :=
  if '0' ≤ c ∧ c ≤ '9' then some (c.toNat - '0'.toNat) else none

/-- Parse a nonempty all-digit character list as a natural number. -/
def natOfDigits (cs : List Char) : Option ℕ :=
  if cs = [] then none
  else cs.foldl (fun acc c => acc.bind fun a => (digitVal c).map fun d => a * 10 + d) (some 0)

/-- Integer parse of a string, as pydantic lax mode applies to an `int` field
fed a JSON string (an optional sign followed by digits). -/
def strToInt (s : String) : Option ℤ :=
  match s.toList with
  | '-' :: cs => (natOfDigits cs).map fun n => -(n : ℤ)
  | cs => (natOfDigits cs).map fun n => (n : ℤ)

/-- pydantic (v2, default lax mode) validation of an `int` field: a JSON number
with integral value, or a JSON string parsing as an integer; anything else is a
type error. -/
def coerceInt : Json → Option ℤ
  | .jnum q => if q.den = 1 then some q.num else none
  | .jstr s => strToInt s
  | _ => none

/-- pydantic validation of a `str` field: only a JSON string. -/
def coerceStr : Json → Option String
  | .jstr s => some s
  | _ => none

/-- pydantic validation of a bare `list` field: any JSON array, elements unchecked. -/
def coerceList : Json → Option (List Json)
  | .jarr l => some l
  | _ => none

/-- `FinancialAnalysisResult(**gemini_output)` (line 110): the four declared
fields are looked up and validated; keys not in the schema are ignored
(pydantic default extra-field behaviour); a non-object payload raises (caught
by the surrounding handler, hence `none`). -/
def validateResult : Json → Option AnalysisResult
  | .jobj fields =>
      ((lookupField fields "financial_score").bind coerceInt).bind fun fs =>
      ((lookupField fields "days_to_zero").bind coerceInt).bind fun dz =>
      ((lookupField fields "monthly_spending_shifts").bind coerceList).bind fun sh =>
      ((lookupField fields "advice").bind coerceStr).map fun ad =>
        ⟨fs, dz, sh, ad⟩
  | _ => none

/-- Observable outcome of the external model call when a client exists:
the call raised, the response text was not JSON, or it parsed to a JSON value. -/
inductive ExtOutcome where
  | callError
  | nonJson
  | json (j : Json)

/-- The one exception `run_analysis` can raise past its own handlers:
`KeyError` from `df[amount]` when the frame built from an empty record list has
no columns (line 53). -/
inductive NormError where
  | keyErrorAmount
deriving DecidableEq

/-- The fixed fallback `monthly_spending_shifts` (lines 119-122). -/
def shiftsFallback : List Json :=
  [ .jobj [("category", .jstr "Transportation"), ("change_percent", .jnum 50),
           ("trend", .jstr "increase")],
    .jobj [("category", .jstr "Food"), ("change_percent", .jnum (-20)),
           ("trend", .jstr "decrease")] ]

/-- The fixed fallback `advice` string (line 123). -/
def adviceFallback : String :=
  "Saat ini sistem AI tidak aktif. Lanjutkan dengan analisis dasar: Fokus pada pengeluaran transportasi bulan ini."

/-- The fallback return value (lines 117-130). -/
def fallbackResult (avg : ℚ) (dtz : ℤ) : AnalysisResult :=
  { financial_score := scoreFallback avg
    days_to_zero := dtz
    monthly_spending_shifts := shiftsFallback
    advice := adviceFallback }

/-- `run_analysis(transactions, current_balance)` (lines 39-130), with the clock
and the external client handle made explicit. An empty transaction list raises
`KeyError` at the column coercion; otherwise a result is always returned: the
validated external payload when the call succeeded and validated, the fallback
in every other case. -/
def runAnalysis (txs : List RawTx) (balance : RawNum) (now : ℤ)
    (client : Option ExtOutcome) : Except NormError AnalysisResult :=
  let bal := parseBalance balance
  if txs = [] then .error .keyErrorAmount
  else
    let avg := avgDailyDebit txs now
    let dtz := daysToZeroLocal bal avg
    match client with
    | some (.json j) =>
        match validateResult j with
        | some r => .ok r
        | none => .ok (fallbackResult avg dtz)
    | some .callError => .ok (fallbackResult avg dtz)
    | some .nonJson => .ok (fallbackResult avg dtz)
    | none => .ok (fallbackResult avg dtz)

/-- The failure condition of section 4.3 of the spec: the enrichment step does
not produce a validated result (client absent, call raised, non-JSON response,
or schema validation failure). -/
def extFails (client : Option ExtOutcome) : Prop :=
  match client with
  | none => True
  | some .callError => True
  | some .nonJson => True
  | some (.json j) => validateResult j = none

/-- A concrete valid debit transaction used in witnesses: date parses to day 0,
amount is the float 2, type is debit. -/
def sampleDebit : RawTx := ⟨.valid 0, "Food", .num 2, "debit"⟩

/-- A concrete dropped transaction used in witnesses: its date fails coercion. -/
def badDateTx : RawTx := ⟨.invalid, "X", .num 5, "debit"⟩

/-- A concrete JSON payload carrying exactly the four schema fields with
well-typed values. -/
def goodResultFields : List (String × Json) :=
  [("financial_score", .jnum 80), ("days_to_zero", .jnum 10),
   ("monthly_spending_shifts", .jarr []), ("advice", .jstr "ok")]

/-! Helper lemmas shared by the claim theorems. -/

/-- The summed absolute debit amounts are nonnegative. -/
theorem totalDebits_nonneg (cl : List CleanTx) : 0 ≤ totalDebits cl := by
  refine List.sum_nonneg ?_
  intro x hx
  simp only [totalDebits, List.mem_map, List.mem_filter] at hx
  obtain ⟨t, -, rfl⟩ := hx
  exact abs_nonneg _

/-- The average daily debit computed by the engine is nonnegative, in every case
of the branching on lines 63-68. -/
theorem avgDailyDebit_nonneg (txs : List RawTx) (now : ℤ) :
    0 ≤ avgDailyDebit txs now := by
  unfold avgDailyDebit avgOf
  split
  · exact le_refl 0
  · split
    · refine div_nonneg (totalDebits_nonneg _) ?_
      exact_mod_cast (by omega : (0:ℤ) ≤ daysElapsedOf (cleanRows txs) now)
    · exact le_refl 0

/-- The fallback score is clamped into [10, 100]. -/
theorem scoreFallback_bounds (q : ℚ) :
    10 ≤ scoreFallback q ∧ scoreFallback q ≤ 100 := by
  unfold scoreFallback
  constructor
  · exact le_min (le_max_right _ _) (by norm_num)
  · exact min_le_right _ _

/-- On nonnegative arguments Python truncation agrees with the floor. -/
theorem truncQ_of_nonneg {q : ℚ} (h : 0 ≤ q) : truncQ q = ⌊q⌋ := by
  unfold truncQ
  exact if_pos h

/-- The sample one-debit table cleans to a single row. -/
theorem cleanRows_sampleDebit :
    cleanRows [sampleDebit] = [⟨0, "Food", 2, "debit"⟩] := by
  simp [cleanRows, sampleDebit, parseRow, parseDate, parseAmount, List.filterMap_cons]

/-- On the sample one-debit table at day 0, the average daily debit is 2. -/
theorem avg_sampleDebit : avgDailyDebit [sampleDebit] 0 = 2 := by
  unfold avgDailyDebit avgOf
  rw [cleanRows_sampleDebit]
  rw [if_neg (by simp), if_pos (by norm_num [daysElapsedOf, minDate])]
  norm_num [totalDebits, daysElapsedOf, minDate, List.filter, abs_two]

/-- The well-typed four-field payload validates to the expected record. -/
theorem validate_goodResultFields :
    validateResult (.jobj goodResultFields) = some ⟨80, 10, [], "ok"⟩ := by
  simp [validateResult, goodResultFields, lookupField, coerceInt, coerceList,
    coerceStr, Rat.den_ofNat, Rat.num_ofNat]

/-- Dropping a row that fails coercion leaves the cleaned table unchanged. -/
theorem cleanRows_drop_bad (l₁ l₂ : List RawTx) {bad : RawTx}
    (h : parseRow bad = none) :
    cleanRows (l₁ ++ bad :: l₂) = cleanRows (l₁ ++ l₂) := by
  unfold cleanRows
  rw [List.filterMap_append, List.filterMap_append, List.filterMap_cons, h]

/-! Claim theorems. -/

/-- C3: the spec scenario — empty transaction list, balance 1000, client
unavailable — does not succeed with `999 / 50 /` fixed fallback as claimed;
the code raises `KeyError` at the column coercion, because the frame built from
an empty record list has no `amount` column. -/
theorem C3_empty_list_raises :
    runAnalysis [] (.num 1000) 0 none = .error .keyErrorAmount := rfl

/-- C7: an unparseable balance string is silently coerced to 0, so the result
coincides with the run on the same transactions with a float balance of 0,
whatever the clock and the external-client state. -/
theorem C7_bad_balance_is_zero (txs : List RawTx) (now : ℤ)
    (client : Option ExtOutcome) :
    runAnalysis txs .strBad now client = runAnalysis txs (.num 0) now client := rfl

/-- C10: with the external client absent, the analysis is a deterministic
function of the transaction list, the balance and the current moment: equal
inputs at the same moment give identical results. -/
theorem C10_deterministic (txs₁ txs₂ : List RawTx) (bal₁ bal₂ : RawNum)
    (now : ℤ) (ht : txs₁ = txs₂) (hb : bal₁ = bal₂) :
    runAnalysis txs₁ bal₁ now none = runAnalysis txs₂ bal₂ now none := by
  rw [ht, hb]

/-- Witness for C10 at a concrete input. -/
theorem C10_deterministic_witness :
    runAnalysis [] (.num 1) 0 none = runAnalysis [] (.num 1) 0 none :=
  C10_deterministic [] [] (.num 1) (.num 1) 0 rfl rfl

/-- C2 counterexample: on the empty transaction list with the client absent,
`run_analysis` raises `KeyError` instead of returning the fallback result, so
the claim does not hold for every input. -/
theorem C2_empty_input_not_fallback :
    runAnalysis [] (.strOk 1000) 3 none = .error .keyErrorAmount := rfl

/-- C2 amended: for every input with a nonempty transaction list, whenever the
external enrichment fails at any step (client absent, call error, non-JSON
response, or schema validation failure), `run_analysis` raises nothing and
returns the fallback result, whose `days_to_zero` equals the locally computed
value, whose `financial_score` lies in [10, 100], and whose `advice` is the
fixed fallback notice. -/
theorem C2_fallback_on_failure (txs : List RawTx) (bal : RawNum) (now : ℤ)
    (client : Option ExtOutcome) (htxs : txs ≠ []) (hfail : extFails client) :
    runAnalysis txs bal now client =
      .ok (fallbackResult (avgDailyDebit txs now)
        (daysToZeroLocal (parseBalance bal) (avgDailyDebit txs now))) ∧
    (fallbackResult (avgDailyDebit txs now)
        (daysToZeroLocal (parseBalance bal) (avgDailyDebit txs now))).days_to_zero =
      daysToZeroLocal (parseBalance bal) (avgDailyDebit txs now) ∧
    10 ≤ (fallbackResult (avgDailyDebit txs now)
        (daysToZeroLocal (parseBalance bal) (avgDailyDebit txs now))).financial_score ∧
    (fallbackResult (avgDailyDebit txs now)
        (daysToZeroLocal (parseBalance bal) (avgDailyDebit txs now))).financial_score ≤ 100 ∧
    (fallbackResult (avgDailyDebit txs now)
        (daysToZeroLocal (parseBalance bal) (avgDailyDebit txs now))).advice =
      adviceFallback := by
  refine ⟨?_, rfl, (scoreFallback_bounds _).1, (scoreFallback_bounds _).2, rfl⟩
  unfold runAnalysis
  rw [if_neg htxs]
  match client with
  | none => rfl
  | some .callError => rfl
  | some .nonJson => rfl
  | some (.json j) =>
      have hv : validateResult j = none := hfail
      simp only [hv]

/-- Witness for C2 at a concrete failing client state and nonempty input. -/
theorem C2_fallback_on_failure_witness :
    runAnalysis [⟨.valid 0, "Food", .num 2, "debit"⟩] (.num 5) 0 none =
      .ok (fallbackResult (avgDailyDebit [⟨.valid 0, "Food", .num 2, "debit"⟩] 0)
        (daysToZeroLocal (parseBalance (.num 5))
          (avgDailyDebit [⟨.valid 0, "Food", .num 2, "debit"⟩] 0))) ∧
    (fallbackResult (avgDailyDebit [⟨.valid 0, "Food", .num 2, "debit"⟩] 0)
        (daysToZeroLocal (parseBalance (.num 5))
          (avgDailyDebit [⟨.valid 0, "Food", .num 2, "debit"⟩] 0))).days_to_zero =
      daysToZeroLocal (parseBalance (.num 5))
        (avgDailyDebit [⟨.valid 0, "Food", .num 2, "debit"⟩] 0) ∧
    10 ≤ (fallbackResult (avgDailyDebit [⟨.valid 0, "Food", .num 2, "debit"⟩] 0)
        (daysToZeroLocal (parseBalance (.num 5))
          (avgDailyDebit [⟨.valid 0, "Food", .num 2, "debit"⟩] 0))).financial_score ∧
    (fallbackResult (avgDailyDebit [⟨.valid 0, "Food", .num 2, "debit"⟩] 0)
        (daysToZeroLocal (parseBalance (.num 5))
          (avgDailyDebit [⟨.valid 0, "Food", .num 2, "debit"⟩] 0))).financial_score ≤ 100 ∧
    (fallbackResult (avgDailyDebit [⟨.valid 0, "Food", .num 2, "debit"⟩] 0)
        (daysToZeroLocal (parseBalance (.num 5))
          (avgDailyDebit [⟨.valid 0, "Food", .num 2, "debit"⟩] 0))).advice =
      adviceFallback :=
  C2_fallback_on_failure [⟨.valid 0, "Food", .num 2, "debit"⟩] (.num 5) 0 none
    (by simp) trivial

/-- C4: with at least one valid debit row and a positive elapsed-day count,
the average daily debit equals the summed absolute debit amounts of the cleaned
table divided by the elapsed days, and is nonnegative. -/
theorem C4_avg_daily_debit (txs : List RawTx) (now : ℤ)
    (hdebit : ∃ t ∈ cleanRows txs, t.type = "debit")
    (hdays : 0 < daysElapsed txs now) :
    avgDailyDebit txs now = totalDebits (cleanRows txs) / (daysElapsed txs now : ℚ) ∧
    0 ≤ avgDailyDebit txs now := by
  obtain ⟨t, ht, -⟩ := hdebit
  have hne : cleanRows txs ≠ [] := List.ne_nil_of_mem ht
  have hd : 0 < daysElapsedOf (cleanRows txs) now := hdays
  refine ⟨?_, avgDailyDebit_nonneg txs now⟩
  show avgOf (cleanRows txs) now = _
  unfold avgOf
  rw [if_neg hne, if_pos hd]
  rfl

/-- Witness for C4 at a one-row debit input on the same day as the clock. -/
theorem C4_avg_daily_debit_witness :
    avgDailyDebit [⟨.valid 0, "Food", .num 2, "debit"⟩] 0 =
      totalDebits (cleanRows [⟨.valid 0, "Food", .num 2, "debit"⟩]) /
        (daysElapsed [⟨.valid 0, "Food", .num 2, "debit"⟩] 0 : ℚ) ∧
    0 ≤ avgDailyDebit [⟨.valid 0, "Food", .num 2, "debit"⟩] 0 :=
  C4_avg_daily_debit [⟨.valid 0, "Food", .num 2, "debit"⟩] 0
    (⟨⟨0, "Food", 2, "debit"⟩,
      by simp [cleanRows, parseRow, parseDate, parseAmount, List.filterMap_cons], rfl⟩)
    (by norm_num [daysElapsed, daysElapsedOf, cleanRows, parseRow, parseDate,
      parseAmount, minDate, List.filterMap_cons])

/-- C5: the fallback financial score is the clamp of `50 + floor(avg / 100000 * 5)`
into [10, 100] for every nonnegative argument, the average daily debit computed
by the engine is always nonnegative, and the two spec instances evaluate to 50
and 100. -/
theorem C5_score_formula :
    (∀ q : ℚ, 0 ≤ q →
      scoreFallback q = min (max (50 + ⌊q / 100000 * 5⌋) 10) 100) ∧
    (∀ (txs : List RawTx) (now : ℤ), 0 ≤ avgDailyDebit txs now) ∧
    scoreFallback 0 = 50 ∧ scoreFallback 2000000 = 100 := by
  refine ⟨?_, avgDailyDebit_nonneg, ?_, ?_⟩
  · intro q hq
    unfold scoreFallback
    rw [truncQ_of_nonneg (mul_nonneg (div_nonneg hq (by norm_num)) (by norm_num))]
  · norm_num [scoreFallback, truncQ]
  · norm_num [scoreFallback, truncQ]

/-- Witness for C5 at a concrete nonnegative argument and a concrete input. -/
theorem C5_score_formula_witness :
    scoreFallback 7 = min (max (50 + ⌊(7 : ℚ) / 100000 * 5⌋) 10) 100 ∧
    0 ≤ avgDailyDebit [] 0 :=
  ⟨C5_score_formula.1 7 (by norm_num), C5_score_formula.2.1 [] 0⟩

/-- C9: a nonempty transaction list whose rows all fail date or amount coercion
cleans to an empty table, so the engine computes one elapsed day, zero average
daily debit, the 999 sentinel, and (client absent) the fallback with score 50. -/
theorem C9_all_rows_bad (txs : List RawTx) (bal : RawNum) (now : ℤ)
    (hne : txs ≠ [])
    (hbad : ∀ t ∈ txs, parseDate t.date = none ∨ parseAmount t.amount = none) :
    daysElapsed txs now = 1 ∧ avgDailyDebit txs now = 0 ∧
    daysToZeroLocal (parseBalance bal) (avgDailyDebit txs now) = 999 ∧
    runAnalysis txs bal now none = .ok ⟨50, 999, shiftsFallback, adviceFallback⟩ := by
  have hcl : cleanRows txs = [] := by
    rw [cleanRows, List.filterMap_eq_nil_iff]
    intro t ht
    rcases hbad t ht with h | h
    · simp [parseRow, h]
    · unfold parseRow
      rw [h]
      cases parseDate t.date <;> rfl
  have hde : daysElapsed txs now = 1 := by
    unfold daysElapsed daysElapsedOf
    rw [hcl]
    rfl
  have havg : avgDailyDebit txs now = 0 := by
    unfold avgDailyDebit avgOf
    rw [hcl]
    rfl
  have hdtz : daysToZeroLocal (parseBalance bal) (avgDailyDebit txs now) = 999 := by
    rw [havg]
    unfold daysToZeroLocal
    rw [if_neg (by norm_num)]
  refine ⟨hde, havg, hdtz, ?_⟩
  unfold runAnalysis
  rw [if_neg hne]
  show Except.ok (fallbackResult (avgDailyDebit txs now)
    (daysToZeroLocal (parseBalance bal) (avgDailyDebit txs now))) = _
  rw [hdtz, havg]
  unfold fallbackResult
  norm_num [scoreFallback, truncQ]

/-- Witness for C9 at a one-row list whose only row has an unparseable date. -/
theorem C9_all_rows_bad_witness :
    daysElapsed [⟨.invalid, "X", .num 5, "debit"⟩] 0 = 1 ∧
    avgDailyDebit [⟨.invalid, "X", .num 5, "debit"⟩] 0 = 0 ∧
    daysToZeroLocal (parseBalance (.num 1000))
      (avgDailyDebit [⟨.invalid, "X", .num 5, "debit"⟩] 0) = 999 ∧
    runAnalysis [⟨.invalid, "X", .num 5, "debit"⟩] (.num 1000) 0 none =
      .ok ⟨50, 999, shiftsFallback, adviceFallback⟩ :=
  C9_all_rows_bad [⟨.invalid, "X", .num 5, "debit"⟩] (.num 1000) 0 (by simp)
    (by intro t ht
        simp only [List.mem_singleton] at ht
        subst ht
        left
        rfl)

/-- C1 counterexample: with a single same-day debit of 2 and balance -5, the
average daily debit is 2, and the code computes `int(-5 / 2) = -2`, while the
floor of -5/2 is -3: for a negative balance the local days-to-zero is not the
floor of the quotient. -/
theorem C1_negative_balance_not_floor :
    daysToZeroLocal (parseBalance (.num (-5))) (avgDailyDebit [sampleDebit] 0) = -2 ∧
    ⌊parseBalance (RawNum.num (-5)) / avgDailyDebit [sampleDebit] 0⌋ = -3 ∧
    daysToZeroLocal (parseBalance (.num (-5))) (avgDailyDebit [sampleDebit] 0) ≠
      ⌊parseBalance (RawNum.num (-5)) / avgDailyDebit [sampleDebit] 0⌋ := by
  have hbal : parseBalance (RawNum.num (-5)) = -5 := rfl
  have h1 : daysToZeroLocal (-5 : ℚ) 2 = -2 := by
    unfold daysToZeroLocal
    rw [if_pos (by norm_num)]
    unfold truncQ
    rw [if_neg (by norm_num)]
    rw [show ((-5 : ℚ) / 2) = -(5 / 2) by ring, Int.ceil_neg]
    norm_num
  have h2 : ⌊(-5 : ℚ) / 2⌋ = -3 := by norm_num
  rw [hbal, avg_sampleDebit]
  exact ⟨h1, h2, by rw [h1, h2]; decide⟩

/-- C1 amended: the local days-to-zero is the 999 sentinel exactly when the
average daily debit is 0, and otherwise the truncation toward zero of
`current_balance / avg_daily_debit`; that truncation coincides with the floor
for a nonnegative balance, and the two cases are exhaustive because the
computed average is never negative. -/
theorem C1_days_to_zero_local (txs : List RawTx) (bal : RawNum) (now : ℤ) :
    (avgDailyDebit txs now = 0 →
      daysToZeroLocal (parseBalance bal) (avgDailyDebit txs now) = 999) ∧
    (0 < avgDailyDebit txs now →
      daysToZeroLocal (parseBalance bal) (avgDailyDebit txs now) =
        truncQ (parseBalance bal / avgDailyDebit txs now) ∧
      (0 ≤ parseBalance bal →
        daysToZeroLocal (parseBalance bal) (avgDailyDebit txs now) =
          ⌊parseBalance bal / avgDailyDebit txs now⌋)) ∧
    (avgDailyDebit txs now = 0 ∨ 0 < avgDailyDebit txs now) := by
  refine ⟨?_, ?_, ?_⟩
  · intro h
    unfold daysToZeroLocal
    rw [h, if_neg (by norm_num)]
  · intro h
    have he : daysToZeroLocal (parseBalance bal) (avgDailyDebit txs now) =
        truncQ (parseBalance bal / avgDailyDebit txs now) := by
      unfold daysToZeroLocal
      rw [if_pos h]
    refine ⟨he, fun hb => ?_⟩
    rw [he, truncQ_of_nonneg (div_nonneg hb h.le)]
  · rcases (avgDailyDebit_nonneg txs now).lt_or_eq with h | h
    · exact Or.inr h
    · exact Or.inl h.symm

/-- Witness for C1 on the sample debit table with a positive balance. -/
theorem C1_days_to_zero_local_witness :
    daysToZeroLocal (parseBalance (.num 7)) (avgDailyDebit [sampleDebit] 0) =
      truncQ (parseBalance (RawNum.num 7) / avgDailyDebit [sampleDebit] 0) ∧
    daysToZeroLocal (parseBalance (.num 7)) (avgDailyDebit [sampleDebit] 0) =
      ⌊parseBalance (RawNum.num 7) / avgDailyDebit [sampleDebit] 0⌋ := by
  have h := (C1_days_to_zero_local [sampleDebit] (.num 7) 0).2.1
    (by rw [avg_sampleDebit]; norm_num)
  exact ⟨h.1, h.2 (by show (0 : ℚ) ≤ 7; norm_num)⟩

/-- C6 counterexample: a list holding only one unparseable row runs to the
fallback result, but removing that row leaves the empty list, on which the code
raises `KeyError` instead of computing the same statistics. -/
theorem C6_singleton_bad_row :
    runAnalysis [badDateTx] (.num 200) 0 none = .ok (fallbackResult 0 999) ∧
    runAnalysis [] (.num 200) 0 none = .error .keyErrorAmount := by
  refine ⟨?_, rfl⟩
  have havg : avgDailyDebit [badDateTx] 0 = 0 := by
    simp [avgDailyDebit, avgOf, cleanRows, badDateTx, parseRow, parseDate,
      List.filterMap_cons]
  have hdtz : daysToZeroLocal (parseBalance (.num 200)) 0 = 999 := by
    unfold daysToZeroLocal
    rw [if_neg (by norm_num)]
  unfold runAnalysis
  rw [if_neg (by simp)]
  show Except.ok (fallbackResult (avgDailyDebit [badDateTx] 0)
    (daysToZeroLocal (parseBalance (.num 200)) (avgDailyDebit [badDateTx] 0))) = _
  rw [havg, hdtz]

/-- C6 amended: removing a row with an unparseable date or amount changes
neither the average daily debit nor the local days-to-zero nor the returned
result, provided at least one other row remains (the all-rows-removed case
instead raises, see the counterexample). -/
theorem C6_remove_bad_row (l₁ l₂ : List RawTx) (bad : RawTx) (bal : RawNum)
    (now : ℤ) (client : Option ExtOutcome)
    (hbad : parseRow bad = none) (hne : l₁ ++ l₂ ≠ []) :
    avgDailyDebit (l₁ ++ bad :: l₂) now = avgDailyDebit (l₁ ++ l₂) now ∧
    daysToZeroLocal (parseBalance bal) (avgDailyDebit (l₁ ++ bad :: l₂) now) =
      daysToZeroLocal (parseBalance bal) (avgDailyDebit (l₁ ++ l₂) now) ∧
    runAnalysis (l₁ ++ bad :: l₂) bal now client =
      runAnalysis (l₁ ++ l₂) bal now client := by
  have hcl := cleanRows_drop_bad l₁ l₂ hbad
  have havg : avgDailyDebit (l₁ ++ bad :: l₂) now = avgDailyDebit (l₁ ++ l₂) now := by
    unfold avgDailyDebit
    rw [hcl]
  refine ⟨havg, by rw [havg], ?_⟩
  simp only [runAnalysis]
  rw [if_neg (by simp), if_neg hne, havg]

/-- Witness for C6: dropping the unparseable row from a two-row list. -/
theorem C6_remove_bad_row_witness :
    avgDailyDebit ([sampleDebit] ++ badDateTx :: []) 0 =
      avgDailyDebit ([sampleDebit] ++ []) 0 ∧
    daysToZeroLocal (parseBalance (.num 7))
        (avgDailyDebit ([sampleDebit] ++ badDateTx :: []) 0) =
      daysToZeroLocal (parseBalance (.num 7)) (avgDailyDebit ([sampleDebit] ++ []) 0) ∧
    runAnalysis ([sampleDebit] ++ badDateTx :: []) (.num 7) 0 none =
      runAnalysis ([sampleDebit] ++ []) (.num 7) 0 none :=
  C6_remove_bad_row [sampleDebit] [] badDateTx (.num 7) 0 none rfl (by simp)

/-- C8 counterexample: a response holding the four required fields with correct
types plus one additional unknown field (`mood`) validates successfully — the
unknown key is ignored, not rejected — contradicting the claim that an unknown
field is a validation failure. -/
theorem C8_extra_field_accepted :
    validateResult (.jobj (goodResultFields ++ [("mood", .jstr "great")])) =
      some ⟨80, 10, [], "ok"⟩ := by
  simp [validateResult, goodResultFields, lookupField, coerceInt, coerceList,
    coerceStr, Rat.den_ofNat, Rat.num_ofNat]

/-- C8 amended: the validation step rejects a payload with a missing required
field (every accepted payload carries all four schema keys) and rejects a
mistyped field (the well-typed payload with `advice` replaced by a number is
refused), but a payload with the four well-typed required fields plus an
unknown extra field is accepted, the extra field being dropped. -/
theorem C8_strict_validation :
    (∀ (fields : List (String × Json)) (r : AnalysisResult),
        validateResult (.jobj fields) = some r →
        (lookupField fields "financial_score").isSome ∧
        (lookupField fields "days_to_zero").isSome ∧
        (lookupField fields "monthly_spending_shifts").isSome ∧
        (lookupField fields "advice").isSome) ∧
    validateResult (.jobj [("financial_score", .jnum 80), ("days_to_zero", .jnum 10),
      ("monthly_spending_shifts", .jarr []), ("advice", .jnum 42)]) = none ∧
    validateResult (.jobj (goodResultFields ++ [("mood", .jstr "great")])) =
      some ⟨80, 10, [], "ok"⟩ := by
  refine ⟨?_, ?_, ?_⟩
  · intro fields r h
    simp only [validateResult, Option.bind_eq_some, Option.map_eq_some'] at h
    obtain ⟨fs, ⟨v₁, hv₁, -⟩, dz, ⟨v₂, hv₂, -⟩, sh, ⟨v₃, hv₃, -⟩, ad, ⟨v₄, hv₄, -⟩, -⟩ := h
    simp [hv₁, hv₂, hv₃, hv₄]
  · simp [validateResult, lookupField, coerceInt, coerceList, coerceStr,
      Rat.den_ofNat, Rat.num_ofNat]
  · simp [validateResult, goodResultFields, lookupField, coerceInt, coerceList,
      coerceStr, Rat.den_ofNat, Rat.num_ofNat]

/-- Witness for C8: the accepted well-typed payload carries all four keys. -/
theorem C8_strict_validation_witness :
    (lookupField goodResultFields "financial_score").isSome ∧
    (lookupField goodResultFields "days_to_zero").isSome ∧
    (lookupField goodResultFields "monthly_spending_shifts").isSome ∧
    (lookupField goodResultFields "advice").isSome :=
  C8_strict_validation.1 goodResultFields ⟨80, 10, [], "ok"⟩ validate_goodResultFields

end LedgerFlow
